import Mathlib

/-!
Verification of the avalanche-faucet admission-and-dispatch pipeline
(`src/server.ts`) against its natural-language specification.

The source is embedded shallowly: JavaScript objects used by the startup
configuration merge are association lists of JSON values, request handlers
are pure functions from a request/environment to an outcome value, and the
asynchronous dispatch callbacks are functions from the collaborator's
settled result to the observable effect (response, coupon reclaim).
JavaScript truthiness is modelled explicitly wherever the source branches
on it.
-/

set_option autoImplicit false

namespace Faucet

/-- A JSON-ish value as handled by the loosely-typed request/config objects
in `server.ts`.  `null` also stands for JavaScript `undefined` where the
distinction is immaterial to the modelled code. -/
inductive JVal where
  | null
  | bool (b : Bool)
  | num (n : Int)
  | str (s : String)
  deriving DecidableEq, Repr

/-- JavaScript truthiness of a possibly-absent value: `undefined`, `null`,
`false`, `0` and `""` are falsy; everything else is truthy. -/
def jsTruthy : Option JVal → Bool
  | none => false
  | some JVal.null => false
  | some (JVal.bool b) => b
  | some (JVal.num n) => n != 0
  | some (JVal.str s) => s != ""

/-- A JavaScript object, as an association list of fields (unique keys in
well-formed objects, mirroring `Object.keys`). -/
abbrev JsObj := List (String × JVal)

/-- Field read `o[k]`: the first field with the given name (`none` models
`undefined`). -/
def jsGet (o : JsObj) (k : String) : Option JVal :=
  match o with
  | [] => none
  | (a, b) :: rest => if a == k then some b else jsGet rest k

/-- Field write `o[k] = v`: replaces the first occurrence of the field in
place when present, appends it otherwise (JS objects have unique keys). -/
def jsSet (o : JsObj) (k : String) (v : JVal) : JsObj :=
  match o with
  | [] => [(k, v)]
  | (a, b) :: rest => if a == k then (k, v) :: rest else (a, b) :: jsSet rest k v

/-- `server.ts` line 85: the config fields never copied from a host chain
onto an ERC20 token. -/
def separateConfigFields : List String :=
  ["COUPON_REQUIRED", "MAINNET_BALANCE_CHECK_ENABLED"]

/-- `populateConfig(child, parent)` from `server.ts` lines 88-96: for every
key of the parent, unless the key is exempt or the child's current value is
truthy (`!child[key]` is the source's test, so falsy child values count as
missing), the parent's value is written onto the child.  The recursion
walks the parent's entries, mirroring `Object.keys(parent).forEach`. -/
def populateConfig (child : JsObj) : JsObj → JsObj
  | [] => child
  | (k, v) :: rest =>
      populateConfig
        (if k ∈ separateConfigFields ∨ jsTruthy (jsGet child k) then child
         else jsSet child k v) rest

/-- `getChainByID` from `server.ts` lines 75-83: a `forEach` that keeps
overwriting the reply, so the last matching chain wins. -/
def getChainByID (chains : List JsObj) (id : JVal) : Option JsObj :=
  chains.foldl (fun reply chain => if jsGet chain "ID" = some id then some chain else reply) none

/-- The startup merge applied to each ERC20 token (`server.ts` lines
109-114): when the token's `HOSTID` is truthy, the token is populated from
`getChainByID(evmchains, token.HOSTID)`; a missing host makes
`populateConfig` iterate `Object.keys(undefined || {})`, i.e. change
nothing. -/
def mergeToken (evmchains : List JsObj) (token : JsObj) : JsObj :=
  if jsTruthy (jsGet token "HOSTID") then
    populateConfig token ((getChainByID evmchains ((jsGet token "HOSTID").getD JVal.null)).getD [])
  else token

/-- The collaborator's settled report for one transfer
(`SendTokenResponse`): `txHash = none` models an absent hash. -/
structure SendTokenResponse where
  status : Int
  message : String
  txHash : Option String
  deriving DecidableEq, Repr

/-- Body of a `/batchClaimToken` response: `data = some (n, e)` carries the
`nativeTxHash` and `erc20TxHash` fields (`none` for `null`/absent);
`data = none` means the generic-failure body without a `data` field. -/
structure BatchRespBody where
  message : String
  data : Option (Option String × Option String)
  deriving DecidableEq, Repr

/-- The `Promise.all` aggregation of the two batch legs (`server.ts` lines
279-288): the branch taken depends only on whether each leg's reported
`status` is 200. -/
def batchAggregate (native erc20T : SendTokenResponse) : Int × BatchRespBody :=
  if native.status = 200 ∧ erc20T.status = 200 then
    (200, ⟨"Tokens sent successfully", some (native.txHash, erc20T.txHash)⟩)
  else if native.status = 200 then
    (400, ⟨"Native token sent successfully", some (native.txHash, none)⟩)
  else if erc20T.status = 200 then
    (400, ⟨"ERC20 token sent successfully", some (none, erc20T.txHash)⟩)
  else
    (400, ⟨"Failed to send tokens", none⟩)

/-- JavaScript truthiness of an optional string (the usual `x && ...` test
on a `string | undefined` binding): truthy iff present and non-empty. -/
def strTruthy : Option String → Bool
  | none => false
  | some s => s != ""

/-- Embedding of JavaScript `String.prototype.toUpperCase` (character-wise
uppercasing). -/
def jsToUpperCase (s : String) : String := String.mk (s.data.map Char.toUpper)

/-- The per-identity rate limiter's key generator (`server.ts` lines
59-65): uppercases `req.body?.address` when it is a truthy string, returns
`undefined` otherwise.  The body field is an arbitrary JSON value. -/
def keyGenerator (address : Option JVal) : Option String :=
  match address with
  | some (JVal.str s) => if s != "" then some (jsToUpperCase s) else none
  | _ => none

/-- Modelled from the spec: §4.2 says a request whose derived per-identity
key is absent falls back to the per-resource key.  The limiter middleware
itself (`./middlewares`) is not part of the embedded source. -/
def rateLimiterKey (address : Option JVal) (perResourceKey : String) : String :=
  (keyGenerator address).getD perResourceKey

/-- `checkPassedType` values of `PipelineCheckValidity`. -/
inductive PipelineCheck where
  | NONE
  | COUPON
  | MAINNET_BALANCE
  deriving DecidableEq, Repr

/-- The pipeline validity record threaded through the `/sendToken`
checks. -/
structure PipelineCheckValidity where
  isValid : Bool
  dripAmount : Int
  checkPassedType : PipelineCheck := PipelineCheck.NONE
  errorMessage : Option String := none
  mainnetBalance : Option Int := none
  deriving DecidableEq, Repr

/-- Modelled from the spec: `checkCouponPipeline` lives in
`utils/pipelineChecks`, outside the embedded source.  Per §4.3/§6 it
consults the coupon collaborator's redeem-and-validate operation (here the
pre-computed result `couponResult`: `some amt` for a valid coupon with
usable amount `amt`, `none` for an invalid one); on success it marks the
request valid with `checkPassedType = COUPON` and may substitute a capped
amount, on failure it records an error message and leaves validity
unchanged. -/
def checkCouponPipeline (couponResult : Option Int) (v : PipelineCheckValidity) :
    PipelineCheckValidity :=
  match couponResult with
  | some amt =>
      { v with isValid := true, checkPassedType := PipelineCheck.COUPON,
               dripAmount := min v.dripAmount amt }
  | none => { v with errorMessage := some "Invalid or expired coupon provided. " }

/-- Modelled from the spec: `checkMainnetBalancePipeline` lives in
`utils/pipelineChecks`, outside the embedded source.  Per §4.3/§6 it asks
the mainnet collaborator `checkBalance` (here the pre-computed result
`(sufficient, balance)`); when sufficient it marks the request valid with
`checkPassedType = MAINNET_BALANCE`, otherwise it records an error
message. -/
def checkMainnetBalancePipeline (balanceResult : Bool × Int) (v : PipelineCheckValidity) :
    PipelineCheckValidity :=
  if balanceResult.1 then
    { v with isValid := true, checkPassedType := PipelineCheck.MAINNET_BALANCE,
             mainnetBalance := some balanceResult.2 }
  else
    { v with errorMessage := some "Insufficient mainnet balance. ",
             mainnetBalance := some balanceResult.2 }

/-- Configuration of an ERC20 token as seen by the request handlers, after
the startup merge.  Fields the merge may leave unset are optional. -/
structure TokenCfg where
  ID : String
  DRIP_AMOUNT : Option Int
  COUPON_REQUIRED : Option Bool
  MAINNET_BALANCE_CHECK_ENABLED : Option Bool
  deriving DecidableEq, Repr

/-- Configuration of an EVM chain (`ChainType`): `DRIP_AMOUNT` is a
required field of a chain config. -/
structure ChainCfg where
  ID : String
  DRIP_AMOUNT : Int
  COUPON_REQUIRED : Option Bool
  MAINNET_BALANCE_CHECK_ENABLED : Option Bool
  deriving DecidableEq, Repr

/-- One entry of the `evms` map: the chain's config together with the
ERC20 contracts registered on its instance, keyed by token `ID`. -/
structure EvmEntry where
  config : ChainCfg
  contracts : List TokenCfg
  deriving DecidableEq, Repr

/-- `evms.get(chain)`: lookup in the startup-built map. -/
def evmsGet (evms : List (String × EvmEntry)) (chain : String) : Option EvmEntry :=
  (evms.find? (fun p => p.1 == chain)).map (fun p => p.2)

/-- `evm?.instance?.contracts?.get(erc20 ?? "")`. -/
def contractsGet (evm : EvmEntry) (erc20 : Option String) : Option TokenCfg :=
  evm.contracts.find? (fun t => t.ID == erc20.getD "")

/-- `erc20Instance?.config.ID ?? evm.config.ID` (`server.ts` line 138). -/
def faucetConfigIdOf (evm : EvmEntry) (tok : Option TokenCfg) : String :=
  (tok.map (fun t => t.ID)).getD evm.config.ID

/-- `erc20Instance?.config.DRIP_AMOUNT ?? evm.config.DRIP_AMOUNT`
(`server.ts` line 141). -/
def dripAmountOf (evm : EvmEntry) (tok : Option TokenCfg) : Int :=
  (tok.bind (fun t => t.DRIP_AMOUNT)).getD evm.config.DRIP_AMOUNT

/-- `(erc20Instance ? ... : evm.config.MAINNET_BALANCE_CHECK_ENABLED) ?? false`
(`server.ts` line 150). -/
def mainnetEnabledOf (evm : EvmEntry) (tok : Option TokenCfg) : Bool :=
  (match tok with
   | some t => t.MAINNET_BALANCE_CHECK_ENABLED
   | none => evm.config.MAINNET_BALANCE_CHECK_ENABLED).getD false

/-- `couponConfig.IS_ENABLED && ((erc20Instance ? ... : ...) ?? false)`
(`server.ts` line 151). -/
def couponEnabledOf (couponIsEnabled : Bool) (evm : EvmEntry) (tok : Option TokenCfg) : Bool :=
  couponIsEnabled &&
    (match tok with
     | some t => t.COUPON_REQUIRED
     | none => evm.config.COUPON_REQUIRED).getD false

/-- Environment of the `/sendToken` handler: the startup state plus the
collaborators' responses, pre-computed as functions of what the handler
passes them (oracles standing for the asynchronous round-trips). -/
structure SendTokenEnv where
  couponIsEnabled : Bool
  evms : List (String × EvmEntry)
  couponOracle : String → Option String → Option Int
  mainnetOracle : String → Bool × Int

/-- A `/sendToken` request body. -/
structure SendTokenReq where
  address : String
  chain : String
  erc20 : Option String
  coupon : Option String

/-- Outcome of the `/sendToken` handler body, up to the dispatch call. -/
inductive SendOutcome where
  | invalidParams
  | pipelineFail (message : String)
  | dispatch (address : String) (erc20 : Option String) (amount : Int)
      (validity : PipelineCheckValidity)
  deriving DecidableEq, Repr

/-- The `/sendToken` handler (`server.ts` lines 121-183), from parameter
validation to either a 400 response or the `sendToken` dispatch.  Returns
the outcome together with two flags recording whether the coupon check and
the mainnet-balance check were invoked (the source's short-circuiting
`&&` chains on lines 154 and 157). -/
def sendTokenHandler (env : SendTokenEnv) (req : SendTokenReq) :
    SendOutcome × Bool × Bool :=
  match evmsGet env.evms req.chain with
  | none => (SendOutcome.invalidParams, false, false)
  | some evm =>
    let erc20Instance := contractsGet evm req.erc20
    if strTruthy req.erc20 ∧ erc20Instance = none then
      (SendOutcome.invalidParams, false, false)
    else
      let faucetConfigId := faucetConfigIdOf evm erc20Instance
      let dripAmount := dripAmountOf evm erc20Instance
      let mainnetCheckEnabled := mainnetEnabledOf evm erc20Instance
      let couponCheckEnabled := couponEnabledOf env.couponIsEnabled evm erc20Instance
      let v0 : PipelineCheckValidity := { isValid := false, dripAmount := dripAmount }
      let doCoupon := !v0.isValid && couponCheckEnabled
      let v1 := if doCoupon then
          checkCouponPipeline (env.couponOracle faucetConfigId req.coupon) v0
        else v0
      let doMainnet := !v1.isValid && !strTruthy req.coupon && mainnetCheckEnabled
      let v2 := if doMainnet then
          checkMainnetBalancePipeline (env.mainnetOracle req.address) v1
        else v1
      if (mainnetCheckEnabled || couponCheckEnabled) ∧ !v2.isValid then
        (SendOutcome.pipelineFail ((v2.errorMessage.getD "undefined") ++ "pipeline failure"),
         doCoupon, doMainnet)
      else
        (SendOutcome.dispatch req.address req.erc20 v2.dripAmount v2, doCoupon, doMainnet)

/-- The dispatch callback of `/sendToken` (`server.ts` lines 183-191):
given the validity record and coupon captured by the closure and the
collaborator's settled data, returns the compensating reclaim it issues
(`some (couponId, amount)`) or `none`. -/
def sendTokenCallbackReclaim (v : PipelineCheckValidity) (coupon : Option String)
    (data : SendTokenResponse) : Option (String × Int) :=
  if v.checkPassedType = PipelineCheck.COUPON ∧ strTruthy coupon ∧ data.txHash = none then
    some (coupon.getD "", v.dripAmount)
  else
    none

/-- JavaScript truthiness + sign test `!amount || amount <= 0` on a
possibly-absent numeric body field: true when the amount is missing, zero
or negative. -/
def amountInvalid : Option Int → Bool
  | none => true
  | some n => n ≤ 0

/-- A `/claimToken` request body together with the
`process.env.NEO_COUPON_ID` value in force. -/
structure ClaimTokenReq where
  address : String
  chain : String
  amount : Option Int
  erc20 : Option String
  coupon : Option String

/-- Outcome of the `/claimToken` handler body. -/
inductive ClaimOutcome where
  | badRequest (message : String)
  | dispatch (address : String) (erc20 : Option String) (amount : Int)
  deriving DecidableEq, Repr

/-- The `/claimToken` handler (`server.ts` lines 195-226): amount
validation, strict-equality coupon comparison against
`process.env.NEO_COUPON_ID` (both sides may be `undefined`), parameter
validation, then dispatch. -/
def claimTokenHandler (evms : List (String × EvmEntry)) (neoCouponId : Option String)
    (req : ClaimTokenReq) : ClaimOutcome :=
  if amountInvalid req.amount then
    ClaimOutcome.badRequest "Invalid amount passed!"
  else if req.coupon ≠ neoCouponId then
    ClaimOutcome.badRequest "Invalid coupon passed!"
  else
    match evmsGet evms req.chain with
    | none => ClaimOutcome.badRequest "Invalid parameters passed!"
    | some evm =>
      if strTruthy req.erc20 ∧ contractsGet evm req.erc20 = none then
        ClaimOutcome.badRequest "Invalid parameters passed!"
      else
        ClaimOutcome.dispatch req.address req.erc20 ((req.amount).getD 0)

/-- A `/batchClaimToken` request body. -/
structure BatchClaimReq where
  address : String
  chain : Option String
  kiteAmount : Option Int
  erc20 : Option String
  erc20Amount : Option Int
  coupon : Option String

/-- Outcome of the `/batchClaimToken` handler body, up to starting the two
transfer legs: on success both legs are dispatched concurrently, the
native leg with the validated `kiteAmount` and the secondary leg with the
raw `erc20Amount` from the body. -/
inductive BatchOutcome where
  | badRequest (message : String)
  | dispatched (address : String) (kiteAmount : Int) (erc20 : String) (erc20Amount : Option Int)
  deriving DecidableEq, Repr

/-- The `/batchClaimToken` handler (`server.ts` lines 229-277): `chain`
defaults to `"KITE"` and `erc20` to `"USDT"` via `??`; only `kiteAmount`
is validated for presence/positivity; the coupon is compared strictly to
`process.env.NEO_COUPON_ID`; then both legs start. -/
def batchClaimTokenHandler (evms : List (String × EvmEntry)) (neoCouponId : Option String)
    (req : BatchClaimReq) : BatchOutcome :=
  let chain := (req.chain).getD "KITE"
  let erc20 := (req.erc20).getD "USDT"
  if amountInvalid req.kiteAmount then
    BatchOutcome.badRequest "Invalid amount passed!"
  else if req.coupon ≠ neoCouponId then
    BatchOutcome.badRequest "Invalid coupon passed!"
  else
    match evmsGet evms chain with
    | none => BatchOutcome.badRequest "Invalid parameters passed!"
    | some evm =>
      if strTruthy (some erc20) ∧ contractsGet evm (some erc20) = none then
        BatchOutcome.badRequest "Invalid parameters passed!"
      else
        BatchOutcome.dispatched req.address ((req.kiteAmount).getD 0) erc20 req.erc20Amount

/-- The `/getBalance` handler (`server.ts` lines 311-328).
`evmBalance` is the value of `evm?.instance.getBalance(erc20)`: `none`
when the chain lookup failed (so the optional chain yields `undefined`),
`some b` for the collaborator's bigint.  Falsy balances (absent or zero)
are replaced by `BigInt(0)`; the response is always status 200 with the
decimal string of the result. -/
def getBalanceHandler (evmBalance : Option Int) : Int × String :=
  let balance : Int :=
    match evmBalance with
    | some b => if b != 0 then b else 0
    | none => 0
  (200, toString balance)

/-! ## Theorems -/

/-- C1: for every batch dispatch whose two legs both settle, the
aggregated response matches the 4-row table of §4.4 (legs classified by
their reported status): both legs succeed gives HTTP 200 with both
transaction hashes; only the native leg succeeds gives HTTP 400 with the
native hash and a null erc20 hash; only the secondary leg succeeds gives
HTTP 400 with a null native hash and the erc20 hash; both fail gives HTTP
400 with a generic failure message.  In particular a 400 response may
still carry one real transaction hash. -/
theorem c1_batch_aggregation_table (n e : SendTokenResponse) :
    (n.status = 200 → e.status = 200 →
      batchAggregate n e = (200, ⟨"Tokens sent successfully", some (n.txHash, e.txHash)⟩)) ∧
    (n.status = 200 → e.status ≠ 200 →
      batchAggregate n e = (400, ⟨"Native token sent successfully", some (n.txHash, none)⟩)) ∧
    (n.status ≠ 200 → e.status = 200 →
      batchAggregate n e = (400, ⟨"ERC20 token sent successfully", some (none, e.txHash)⟩)) ∧
    (n.status ≠ 200 → e.status ≠ 200 →
      batchAggregate n e = (400, ⟨"Failed to send tokens", none⟩)) := by
  refine ⟨?_, ?_, ?_, ?_⟩ <;> intro h1 h2 <;> simp [batchAggregate, h1, h2]

/-- C1 witness: a settled pair where only the native leg succeeded yields
a 400 response that still carries the native leg's real transaction
hash. -/
theorem c1_batch_aggregation_table_witness :
    batchAggregate ⟨200, "ok", some "0x1"⟩ ⟨400, "fail", none⟩ =
      (400, ⟨"Native token sent successfully", some (some "0x1", none)⟩) :=
  (c1_batch_aggregation_table ⟨200, "ok", some "0x1"⟩ ⟨400, "fail", none⟩).2.1 rfl (by decide)

/-- C6 counterexample: a native leg that settled with status 200 but no
transaction hash is classified as successful by the code — the overall
response is 200 — although the claim's txHash-based classification calls
that leg failed (which would put the pair in the 400 row of the table). -/
theorem c6_counterexample :
    (batchAggregate ⟨200, "ok", none⟩ ⟨200, "ok", some "0xabc"⟩).1 = 200 ∧
    (⟨200, "ok", none⟩ : SendTokenResponse).txHash = none ∧ (200 : Int) ≠ 400 := by
  refine ⟨rfl, rfl, by decide⟩

/-- C6 amended: in batch dispatch a leg counts as successful exactly when
its settled status equals 200, regardless of whether it carries a
transaction hash; the aggregation's overall status and message are
determined by this status-based classification alone. -/
theorem c6_status_classification (n e : SendTokenResponse) :
    ((batchAggregate n e).1 = 200 ↔ n.status = 200 ∧ e.status = 200) ∧
    (∀ n' e' : SendTokenResponse, n'.status = n.status → e'.status = e.status →
      (batchAggregate n' e').1 = (batchAggregate n e).1 ∧
      (batchAggregate n' e').2.message = (batchAggregate n e).2.message) := by
  constructor
  · unfold batchAggregate
    split_ifs with h1 h2 h3 <;> simp_all
  · intro n' e' hn he
    unfold batchAggregate
    split_ifs <;> simp_all

/-- C6 amended witness: legs with matching statuses but different hash
payloads aggregate to the same overall status. -/
theorem c6_status_classification_witness :
    (batchAggregate ⟨200, "x", none⟩ ⟨400, "y", some "h"⟩).1 =
      (batchAggregate ⟨200, "z", some "g"⟩ ⟨400, "w", none⟩).1 :=
  ((c6_status_classification ⟨200, "z", some "g"⟩ ⟨400, "w", none⟩).2
    ⟨200, "x", none⟩ ⟨400, "y", some "h"⟩ rfl rfl).1

/-- C7: the per-identity rate limiter derives its key by uppercasing the
body address when that address is a non-empty string; when the address is
missing, empty, or not a string, no key is derived and the limiter falls
back to the per-resource key. -/
theorem c7_rate_limiter_key (a : Option JVal) :
    (∀ s, a = some (JVal.str s) → s ≠ "" → keyGenerator a = some (jsToUpperCase s)) ∧
    ((∀ s, a = some (JVal.str s) → s = "") →
      keyGenerator a = none ∧ ∀ d, rateLimiterKey a d = d) := by
  cases a with
  | none => exact ⟨fun s h => Option.noConfusion h, fun _ => ⟨rfl, fun d => rfl⟩⟩
  | some v =>
    cases v with
    | str s =>
      constructor
      · intro s' h hne
        obtain rfl : s = s' := by injection h with h'; injection h'
        simp [keyGenerator, hne]
      · intro h
        obtain rfl : s = "" := h s rfl
        exact ⟨rfl, fun d => rfl⟩
    | null => exact ⟨fun s h => JVal.noConfusion (Option.some.inj h), fun _ => ⟨rfl, fun d => rfl⟩⟩
    | bool b => exact ⟨fun s h => JVal.noConfusion (Option.some.inj h), fun _ => ⟨rfl, fun d => rfl⟩⟩
    | num m => exact ⟨fun s h => JVal.noConfusion (Option.some.inj h), fun _ => ⟨rfl, fun d => rfl⟩⟩

/-- C7 witness: a concrete non-empty string address yields its uppercase
form as the key, and a non-string address yields no key, so the default
per-resource key is used. -/
theorem c7_rate_limiter_key_witness :
    keyGenerator (some (JVal.str "abc")) = some "ABC" ∧
    keyGenerator (some (JVal.num 7)) = none ∧
    rateLimiterKey (some (JVal.num 7)) "resource" = "resource" :=
  ⟨((c7_rate_limiter_key (some (JVal.str "abc"))).1 "abc" rfl (by decide)).trans (by decide),
   ((c7_rate_limiter_key (some (JVal.num 7))).2
      (fun s h => JVal.noConfusion (Option.some.inj h))).1,
   ((c7_rate_limiter_key (some (JVal.num 7))).2
      (fun s h => JVal.noConfusion (Option.some.inj h))).2 "resource"⟩

/-- C10: every `/getBalance` request is answered with HTTP 200 and a
decimal-string balance; when the chain is unknown (no balance value) or
the collaborator's balance is falsy, the response carries the string
"0". -/
theorem c10_get_balance (eb : Option Int) :
    (getBalanceHandler eb).1 = 200 ∧
    ((eb = none ∨ eb = some 0) → (getBalanceHandler eb).2 = "0") ∧
    (∃ b : Int, (getBalanceHandler eb).2 = toString b) := by
  refine ⟨rfl, ?_, ?_⟩
  · rintro (rfl | rfl) <;> rfl
  · cases eb with
    | none => exact ⟨0, rfl⟩
    | some b =>
      by_cases h : b = 0
      · subst h; exact ⟨0, rfl⟩
      · refine ⟨b, ?_⟩
        simp [getBalanceHandler, h]

/-- C10 witness: an unknown chain produces status 200 with balance
string "0". -/
theorem c10_get_balance_witness :
    (getBalanceHandler none).1 = 200 ∧ (getBalanceHandler none).2 = "0" :=
  ⟨(c10_get_balance none).1, (c10_get_balance none).2.1 (Or.inl rfl)⟩

/-- C8: the `/claimToken` handler responds 400 without dispatching when
the amount is missing, zero or negative, when the supplied coupon differs
from the configured coupon identifier, or when the chain is unknown or a
supplied erc20 identifier does not resolve on that chain; only requests
passing all three validations reach the transfer call. -/
theorem c8_claim_token_validation (evms : List (String × EvmEntry))
    (neoCouponId : Option String) (req : ClaimTokenReq) :
    (amountInvalid req.amount = true ∨ req.coupon ≠ neoCouponId ∨
        evmsGet evms req.chain = none ∨
        (∃ evm, evmsGet evms req.chain = some evm ∧
          strTruthy req.erc20 = true ∧ contractsGet evm req.erc20 = none) →
      ∃ m, claimTokenHandler evms neoCouponId req = ClaimOutcome.badRequest m) ∧
    (∀ a e amt, claimTokenHandler evms neoCouponId req = ClaimOutcome.dispatch a e amt →
      amountInvalid req.amount = false ∧ req.coupon = neoCouponId ∧
      ∃ evm, evmsGet evms req.chain = some evm ∧
        ¬(strTruthy req.erc20 = true ∧ contractsGet evm req.erc20 = none)) := by
  unfold claimTokenHandler
  by_cases hA : amountInvalid req.amount = true
  · simp [hA]
  · by_cases hC : req.coupon = neoCouponId
    · rcases hE : evmsGet evms req.chain with _ | evm
      · simp [hA, hC, hE]
      · by_cases hP : strTruthy req.erc20 = true ∧ contractsGet evm req.erc20 = none
        · simp [hA, hC, hE, hP]
        · simp [hA, hC, hE, hP]
          exact fun hs hc => hP ⟨hs, hc⟩
    · simp [hA, hC]

/-- C8 witness: a request with a missing amount is rejected with a 400
body, and a fully valid request reaches the dispatch with all three
validations established. -/
theorem c8_claim_token_validation_witness :
    (∃ m, claimTokenHandler [] none
        ⟨"0xA", "C", none, none, none⟩ = ClaimOutcome.badRequest m) ∧
    (amountInvalid (some 2) = false ∧ (some "X" : Option String) = some "X" ∧
      ∃ evm, evmsGet [("C", ⟨⟨"C", 10, none, none⟩, []⟩)] "C" = some evm ∧
        ¬(strTruthy (none : Option String) = true ∧ contractsGet evm none = none)) :=
  ⟨(c8_claim_token_validation [] none ⟨"0xA", "C", none, none, none⟩).1 (Or.inl rfl),
   (c8_claim_token_validation [("C", ⟨⟨"C", 10, none, none⟩, []⟩)] (some "X")
      ⟨"0xA", "C", some 2, none, some "X"⟩).2 "0xA" none 2 rfl⟩

/-- C9: `/batchClaimToken` validates only the native amount: whether the
request is rejected by validation does not depend on `erc20Amount` at all
(a missing, zero or negative `erc20Amount` is not rejected), and when the
request is admitted the secondary leg is dispatched with the raw,
unvalidated `erc20Amount` from the body. -/
theorem c9_batch_erc20_amount_unvalidated (evms : List (String × EvmEntry))
    (neoCouponId : Option String) (req : BatchClaimReq) (a : Option Int) :
    ((∃ m, batchClaimTokenHandler evms neoCouponId { req with erc20Amount := a } =
        BatchOutcome.badRequest m) ↔
      (∃ m, batchClaimTokenHandler evms neoCouponId req = BatchOutcome.badRequest m)) ∧
    (∀ ad k e ea, batchClaimTokenHandler evms neoCouponId req =
        BatchOutcome.dispatched ad k e ea → ea = req.erc20Amount) := by
  unfold batchClaimTokenHandler
  by_cases hA : amountInvalid req.kiteAmount = true
  · simp [hA]
  · by_cases hC : req.coupon = neoCouponId
    · rcases hE : evmsGet evms ((req.chain).getD "KITE") with _ | evm
      · simp [hA, hC, hE]
      · by_cases hP : strTruthy (some ((req.erc20).getD "USDT")) = true ∧
            contractsGet evm (some ((req.erc20).getD "USDT")) = none
        · simp [hA, hC, hE, hP]
        · simp [hA, hC, hE, hP]
          intro ad k e ea h1 h2 h3 h4
          exact h4.symm
    · simp [hA, hC]

/-- C9 witness: an admitted batch request whose `erc20Amount` is negative
still dispatches the secondary leg with that negative amount. -/
theorem c9_batch_erc20_amount_unvalidated_witness :
    (some (-5) : Option Int) =
      (⟨"0xA", some "KITE", some 1, some "USDT", some (-5), some "X"⟩ : BatchClaimReq).erc20Amount :=
  (c9_batch_erc20_amount_unvalidated
      [("KITE", ⟨⟨"KITE", 10, none, none⟩, [⟨"USDT", some 3, none, none⟩]⟩)] (some "X")
      ⟨"0xA", some "KITE", some 1, some "USDT", some (-5), some "X"⟩ none).2
    "0xA" 1 "USDT" (some (-5)) rfl

/-- C2: for every `/sendToken` request that reaches dispatch, the
compensating coupon reclaim is issued iff the pipeline's passed check type
is COUPON, a coupon value was supplied (truthy), and the dispatch callback
reported no transaction hash; and the reclaimed amount equals the drip
amount that was passed to the dispatch. -/
theorem c2_coupon_reclaim (env : SendTokenEnv) (req : SendTokenReq)
    (a : String) (e : Option String) (amt : Int) (v : PipelineCheckValidity) (dc dm : Bool)
    (h : sendTokenHandler env req = (SendOutcome.dispatch a e amt v, dc, dm)) :
    (∀ data : SendTokenResponse,
      (sendTokenCallbackReclaim v req.coupon data).isSome = true ↔
        (v.checkPassedType = PipelineCheck.COUPON ∧ strTruthy req.coupon = true ∧
          data.txHash = none)) ∧
    (∀ data c m, sendTokenCallbackReclaim v req.coupon data = some (c, m) → m = amt) := by
  have hav : amt = v.dripAmount := by
    unfold sendTokenHandler at h
    rcases hE : evmsGet env.evms req.chain with _ | evm <;> rw [hE] at h
    · exact SendOutcome.noConfusion (congrArg Prod.fst h)
    · simp only [] at h
      split_ifs at h
      all_goals
        have ho := congrArg Prod.fst h
      all_goals
        first
        | exact SendOutcome.noConfusion ho
        | (obtain ⟨-, -, h3, h4⟩ := SendOutcome.dispatch.inj ho
           rw [← h3, h4])
  constructor
  · intro data
    unfold sendTokenCallbackReclaim
    split_ifs with hcond
    · simpa using hcond
    · simpa using hcond
  · intro data c m hr
    unfold sendTokenCallbackReclaim at hr
    split_ifs at hr
    · rw [hav]
      exact ((Prod.mk.inj (Option.some.inj hr)).2).symm

/-- C2 witness: a concrete admitted request whose coupon check passed and
whose dispatch settled without a transaction hash issues a reclaim, it
does not issue one when a hash is present, and the reclaimed amount is the
dispatched amount. -/
theorem c2_coupon_reclaim_witness :
    (sendTokenCallbackReclaim ⟨true, 5, PipelineCheck.COUPON, none, none⟩ (some "X")
        ⟨400, "fail", none⟩).isSome = true ∧
    (5 : Int) = 5 := by
  have hmain := c2_coupon_reclaim
    ⟨true, [("C", ⟨⟨"C", 10, some true, none⟩, []⟩)], fun _ _ => some 5, fun _ => (false, 0)⟩
    ⟨"0xA", "C", none, some "X"⟩ "0xA" none 5
    ⟨true, 5, PipelineCheck.COUPON, none, none⟩ true false rfl
  exact ⟨(hmain.1 ⟨400, "fail", none⟩).mpr ⟨rfl, rfl, rfl⟩,
         hmain.2 ⟨400, "fail", none⟩ "X" 5 rfl⟩

/-- C3: whenever a `/sendToken` request supplies a (truthy) coupon value,
the mainnet balance check is never invoked; and when additionally the
coupon check is enabled but the supplied coupon is invalid, the pipeline
rejects the request instead of falling back to the mainnet check — even if
the mainnet check is enabled and would have passed. -/
theorem c3_coupon_priority (env : SendTokenEnv) (req : SendTokenReq)
    (hc : strTruthy req.coupon = true) :
    (sendTokenHandler env req).2.2 = false ∧
    (∀ evm, evmsGet env.evms req.chain = some evm →
      ¬(strTruthy req.erc20 = true ∧ contractsGet evm req.erc20 = none) →
      couponEnabledOf env.couponIsEnabled evm (contractsGet evm req.erc20) = true →
      env.couponOracle (faucetConfigIdOf evm (contractsGet evm req.erc20)) req.coupon = none →
      ∃ m, (sendTokenHandler env req).1 = SendOutcome.pipelineFail m) := by
  constructor
  · unfold sendTokenHandler
    rcases hE : evmsGet env.evms req.chain with _ | evm
    · rfl
    · simp only []
      split_ifs with h1 h2 <;> simp [hc]
  · intro evm hE hP hCE hOr
    unfold sendTokenHandler
    rw [hE]
    simp only []
    rw [if_neg hP]
    simp [hCE, hOr, hc, checkCouponPipeline]

/-- C3 witness: a concrete request with an invalid coupon against a
configuration where both gates are enabled and the mainnet check would
have succeeded: the mainnet check is not invoked and the pipeline
fails. -/
theorem c3_coupon_priority_witness :
    (sendTokenHandler
        ⟨true, [("C", ⟨⟨"C", 10, some true, some true⟩, []⟩)], fun _ _ => none,
          fun _ => (true, 99)⟩
        ⟨"0xA", "C", none, some "BAD"⟩).2.2 = false ∧
    ∃ m, (sendTokenHandler
        ⟨true, [("C", ⟨⟨"C", 10, some true, some true⟩, []⟩)], fun _ _ => none,
          fun _ => (true, 99)⟩
        ⟨"0xA", "C", none, some "BAD"⟩).1 = SendOutcome.pipelineFail m := by
  have hmain := c3_coupon_priority
    ⟨true, [("C", ⟨⟨"C", 10, some true, some true⟩, []⟩)], fun _ _ => none,
      fun _ => (true, 99)⟩
    ⟨"0xA", "C", none, some "BAD"⟩ (by decide)
  exact ⟨hmain.1, hmain.2 ⟨⟨"C", 10, some true, some true⟩, []⟩ rfl (by simp [strTruthy]) rfl rfl⟩

/-- C4: a `/sendToken` request whose resolved configuration has neither
gate enabled and whose parameters are valid is admitted (the outcome is a
dispatch, not a pipeline rejection), and the dispatched amount is the
resolved configuration's DRIP_AMOUNT: the token's own value when an erc20
was resolved and carries one, else the chain's. -/
theorem c4_no_gates_admitted (env : SendTokenEnv) (req : SendTokenReq) (evm : EvmEntry)
    (hE : evmsGet env.evms req.chain = some evm)
    (hP : ¬(strTruthy req.erc20 = true ∧ contractsGet evm req.erc20 = none))
    (hM : mainnetEnabledOf evm (contractsGet evm req.erc20) = false)
    (hC : couponEnabledOf env.couponIsEnabled evm (contractsGet evm req.erc20) = false) :
    (sendTokenHandler env req).1 =
      SendOutcome.dispatch req.address req.erc20
        (dripAmountOf evm (contractsGet evm req.erc20))
        { isValid := false, dripAmount := dripAmountOf evm (contractsGet evm req.erc20) } ∧
    (contractsGet evm req.erc20 = none →
      dripAmountOf evm (contractsGet evm req.erc20) = evm.config.DRIP_AMOUNT) ∧
    (∀ t d, contractsGet evm req.erc20 = some t → t.DRIP_AMOUNT = some d →
      dripAmountOf evm (contractsGet evm req.erc20) = d) := by
  refine ⟨?_, ?_, ?_⟩
  · unfold sendTokenHandler
    rw [hE]
    simp only [hP, if_false, hM, hC]
    simp
  · intro h
    simp [dripAmountOf, h]
  · intro t d ht hd
    simp [dripAmountOf, ht, hd]

/-- C4 witness: with both gates disabled, a concrete valid native-asset
request dispatches the chain's configured drip amount, and a concrete
token request dispatches the token's configured drip amount. -/
theorem c4_no_gates_admitted_witness :
    (sendTokenHandler
        ⟨false, [("C", ⟨⟨"C", 10, none, none⟩, [⟨"T", some 3, none, none⟩]⟩)],
          fun _ _ => none, fun _ => (false, 0)⟩
        ⟨"0xA", "C", some "T", none⟩).1 =
      SendOutcome.dispatch "0xA" (some "T") 3 { isValid := false, dripAmount := 3 } := by
  have hmain := c4_no_gates_admitted
    ⟨false, [("C", ⟨⟨"C", 10, none, none⟩, [⟨"T", some 3, none, none⟩]⟩)],
      fun _ _ => none, fun _ => (false, 0)⟩
    ⟨"0xA", "C", some "T", none⟩ ⟨⟨"C", 10, none, none⟩, [⟨"T", some 3, none, none⟩]⟩
    rfl (by simp [contractsGet]) rfl rfl
  exact hmain.1

theorem jsGet_jsSet_self (o : JsObj) (k : String) (v : JVal) :
    jsGet (jsSet o k v) k = some v := by
  induction o with
  | nil => simp [jsSet, jsGet]
  | cons p rest ih =>
    obtain ⟨a, b⟩ := p
    by_cases h : a = k
    · subst h
      simp [jsSet, jsGet]
    · simpa [jsSet, jsGet, h] using ih

theorem jsGet_jsSet_ne (o : JsObj) (k k' : String) (v : JVal) (h : k' ≠ k) :
    jsGet (jsSet o k v) k' = jsGet o k' := by
  have hkk : ¬ k = k' := fun he => h he.symm
  induction o with
  | nil => simp [jsSet, jsGet, hkk]
  | cons p rest ih =>
    obtain ⟨a, b⟩ := p
    by_cases ha : a = k
    · subst ha
      simp [jsSet, jsGet, hkk]
    · by_cases ha' : a = k'
      · subst ha'
        simp [jsSet, jsGet, ha]
      · simpa [jsSet, jsGet, ha, ha'] using ih

theorem populateConfig_get_not_mem : ∀ (parent : JsObj) (k : String),
    k ∉ parent.map Prod.fst → ∀ child : JsObj,
      jsGet (populateConfig child parent) k = jsGet child k := by
  intro parent
  induction parent with
  | nil => intro k _ child; rfl
  | cons p rest ih =>
    intro k h child
    obtain ⟨k', v'⟩ := p
    have hne : k ≠ k' := by
      intro he
      exact h (by simp [he])
    have htail : k ∉ rest.map Prod.fst := fun hm => h (by simp [hm])
    rw [populateConfig, ih k htail]
    split_ifs with hcond
    · rfl
    · exact jsGet_jsSet_ne child k' k v' hne

theorem populateConfig_get_exempt : ∀ (parent : JsObj) (k : String),
    k ∈ separateConfigFields → ∀ child : JsObj,
      jsGet (populateConfig child parent) k = jsGet child k := by
  intro parent
  induction parent with
  | nil => intro k _ child; rfl
  | cons p rest ih =>
    intro k h child
    obtain ⟨k', v'⟩ := p
    rw [populateConfig, ih k h]
    split_ifs with hcond
    · rfl
    · have hne : k ≠ k' := fun he => hcond (Or.inl (he ▸ h))
      exact jsGet_jsSet_ne child k' k v' hne

theorem populateConfig_get_truthy : ∀ (parent : JsObj) (k : String) (child : JsObj),
    jsTruthy (jsGet child k) = true →
      jsGet (populateConfig child parent) k = jsGet child k := by
  intro parent
  induction parent with
  | nil => intro k child _; rfl
  | cons p rest ih =>
    intro k child h
    obtain ⟨k', v'⟩ := p
    rw [populateConfig]
    split_ifs with hcond
    · exact ih k child h
    · by_cases hk : k = k'
      · subst hk
        exact absurd (Or.inr h) hcond
      · have h2 : jsGet (jsSet child k' v') k = jsGet child k :=
          jsGet_jsSet_ne child k' k v' hk
        rw [ih k (jsSet child k' v') (by rw [h2]; exact h)]
        exact h2

theorem populateConfig_get_copied : ∀ (parent : JsObj) (k : String) (v : JVal),
    (parent.map Prod.fst).Nodup → (k, v) ∈ parent → k ∉ separateConfigFields →
    ∀ child : JsObj, jsTruthy (jsGet child k) = false →
      jsGet (populateConfig child parent) k = some v := by
  intro parent
  induction parent with
  | nil => intro k v _ hk; cases hk
  | cons p rest ih =>
    intro k v hnd hk hex child hf
    obtain ⟨k', v'⟩ := p
    have hnd' : (rest.map Prod.fst).Nodup := (List.nodup_cons.mp (by simpa using hnd)).2
    have hhead : k' ∉ rest.map Prod.fst := (List.nodup_cons.mp (by simpa using hnd)).1
    rw [populateConfig]
    rcases List.mem_cons.mp hk with heq | htail
    · obtain ⟨h1, h2⟩ := Prod.mk.inj heq
      subst h1
      subst h2
      have hcond : ¬(k ∈ separateConfigFields ∨ jsTruthy (jsGet child k) = true) := by
        rintro (h1 | h2)
        · exact hex h1
        · rw [hf] at h2
          cases h2
      rw [if_neg hcond, populateConfig_get_not_mem rest k hhead]
      exact jsGet_jsSet_self child k v
    · have hkk' : k ≠ k' := by
        intro he
        subst he
        exact hhead (List.mem_map.mpr ⟨(k, v), htail, rfl⟩)
      split_ifs with hcond
      · exact ih k v hnd' htail hex child hf
      · have h2 : jsGet (jsSet child k' v') k = jsGet child k :=
          jsGet_jsSet_ne child k' k v' hkk'
        exact ih k v hnd' htail hex (jsSet child k' v') (by rw [h2]; exact hf)

/-- C5 counterexample: a token with `DRIP_AMOUNT` set to `0` (a falsy but
present value) and a `HOSTID` resolving to an existing chain has that
field overwritten by the host's value during the startup merge, although
the claim says fields already set on the token — including values such as
0 — are left unchanged. -/
theorem c5_counterexample :
    jsGet (mergeToken [[("ID", JVal.str "C"), ("DRIP_AMOUNT", JVal.num 5)]]
        [("ID", JVal.str "T"), ("HOSTID", JVal.str "C"), ("DRIP_AMOUNT", JVal.num 0)])
      "DRIP_AMOUNT" = some (JVal.num 5) ∧
    some (JVal.num 5) ≠ some (JVal.num 0) := by
  constructor
  · rfl
  · decide

/-- C5 amended: for every TokenConfig whose truthy `HOSTID` resolves to an
existing ChainConfig (with unique field names), after startup merging
every field present on the host whose name is outside the exempt set and
whose value on the token is absent or falsy (such as 0, false, or the
empty string) equals the host's value; fields set to truthy values on the
token are left unchanged; and the two exempt fields are never copied from
the host. -/
theorem c5_token_inheritance (chains : List JsObj) (token host : JsObj) (hid : JVal)
    (hH : jsGet token "HOSTID" = some hid) (hT : jsTruthy (some hid) = true)
    (hR : getChainByID chains hid = some host)
    (hnd : (host.map Prod.fst).Nodup) :
    (∀ k v, (k, v) ∈ host → k ∉ separateConfigFields →
        jsTruthy (jsGet token k) = false →
        jsGet (mergeToken chains token) k = some v) ∧
    (∀ k, k ∈ separateConfigFields →
        jsGet (mergeToken chains token) k = jsGet token k) ∧
    (∀ k, jsTruthy (jsGet token k) = true →
        jsGet (mergeToken chains token) k = jsGet token k) := by
  have hm : mergeToken chains token = populateConfig token host := by
    unfold mergeToken
    rw [hH]
    simp only [Option.getD_some, hR]
    rw [if_pos hT]
  refine ⟨?_, ?_, ?_⟩
  · intro k v hkv hex hf
    rw [hm]
    exact populateConfig_get_copied host k v hnd hkv hex token hf
  · intro k hex
    rw [hm]
    exact populateConfig_get_exempt host k hex token
  · intro k ht
    rw [hm]
    exact populateConfig_get_truthy host k token ht

/-- C5 witness: a concrete token inheriting its unset `DRIP_AMOUNT` from
its host chain while its own `ID` (truthy) survives the merge. -/
theorem c5_token_inheritance_witness :
    jsGet (mergeToken [[("ID", JVal.str "C"), ("DRIP_AMOUNT", JVal.num 5)]]
        [("ID", JVal.str "T"), ("HOSTID", JVal.str "C")]) "DRIP_AMOUNT" =
      some (JVal.num 5) ∧
    jsGet (mergeToken [[("ID", JVal.str "C"), ("DRIP_AMOUNT", JVal.num 5)]]
        [("ID", JVal.str "T"), ("HOSTID", JVal.str "C")]) "ID" =
      jsGet [("ID", JVal.str "T"), ("HOSTID", JVal.str "C")] "ID" := by
  have hmain := c5_token_inheritance [[("ID", JVal.str "C"), ("DRIP_AMOUNT", JVal.num 5)]]
    [("ID", JVal.str "T"), ("HOSTID", JVal.str "C")]
    [("ID", JVal.str "C"), ("DRIP_AMOUNT", JVal.num 5)] (JVal.str "C")
    rfl rfl rfl (by decide)
  exact ⟨hmain.1 "DRIP_AMOUNT" (JVal.num 5) (by decide) (by decide) rfl,
         hmain.2.2 "ID" rfl⟩

end Faucet
